import Mathlib

/-!
Verification of the tool-calling agent loop of `cafe` (E-commerce4AI), a shallow
embedding of `src/cafe/agents/tool_calling_snowflake_agent.py`.

Python values that flow through the loop (tool arguments, state-store entries,
observations, raw payloads) are embedded as the inductive type `Value`; Python
dicts become association lists with first-match lookup, exceptions become
`Except`, and the in-place mutation of the current `ActionStep` becomes an
`ActionStepRec` returned alongside the step outcome.
-/

/-- A Python value as it appears in tool arguments, the state store and
observations: `None`, strings, integers, booleans, lists and dicts. -/
inductive Value where
  | vnone : Value
  | str (s : String) : Value
  | int (n : Int) : Value
  | bool (b : Bool) : Value
  | list (vs : List Value) : Value
  | dict (kvs : List (String × Value)) : Value

/-- First-match association-list lookup, the embedding of Python dict access
(`d[k]`, `d.get(k)`, `k in d`); Python dicts have unique keys, so first match
is the dict entry. -/
def assocLookup {α : Type} (kvs : List (String × α)) (k : String) : Option α :=
  match kvs with
  | [] => none
  | (k', v) :: rest => if k' == k then some v else assocLookup rest k

mutual

/-- Embeds `json.dumps` on embedded values (string escaping elided): mutual
recursion over a value, a list of items and a list of dict pairs. -/
def jsonDumps : Value → String
  | .vnone => "null"
  | .str s => "\"" ++ s ++ "\""
  | .int n => toString n
  | .bool true => "true"
  | .bool false => "false"
  | .list vs => "[" ++ jsonDumpsItems vs ++ "]"
  | .dict kvs => "\x7b" ++ jsonDumpsPairs kvs ++ "\x7d"

def jsonDumpsItems : List Value → String
  | [] => ""
  | [v] => jsonDumps v
  | v :: rest => jsonDumps v ++ ", " ++ jsonDumpsItems rest

def jsonDumpsPairs : List (String × Value) → String
  | [] => ""
  | [(k, v)] => "\"" ++ k ++ "\": " ++ jsonDumps v
  | (k, v) :: rest => "\"" ++ k ++ "\": " ++ jsonDumps v ++ ", " ++ jsonDumpsPairs rest

end

/-- A Python exception escaping a tool body: `TypeError` is distinguished from
every other exception class (`execute_tool_call` branches on it); other
exceptions carry `type(e).__name__` and `str(e)`. -/
inductive PyExn where
  | typeError (msg : String) : PyExn
  | otherError (typeName : String) (msg : String) : PyExn

/-- A tool (or managed agent) of the registry: `name`, `inputs` schema,
`output_type`, `description`, and the callable body, which either returns a
value or raises. -/
structure ToolDef where
  name : String
  inputs : List (String × Value)
  outputType : String
  description : String
  run : Value → Except PyExn Value

/-- The agent-visible error taxonomy raised by `step`/`execute_tool_call`:
`AgentParsingError`, `AgentToolCallError`, `AgentToolExecutionError`. -/
inductive AgentError where
  | parsingError (msg : String) : AgentError
  | toolCallError (msg : String) : AgentError
  | toolExecutionError (msg : String) : AgentError

/-- A chat message as built by `write_memory_to_messages` /
`action_step_to_messages`: a role plus the optional `content` and
`content_list` entries (`none` embeds an absent / `None` entry). -/
structure Message where
  role : String
  content : Option Value
  contentList : Option Value

/-- A tool call recorded on an `ActionStep` (`smolagents.memory.ToolCall`). -/
structure ToolCall where
  name : String
  arguments : Value
  id : String

/-- A tool call as parsed out of the gateway reply
(`ChatMessageToolCallDefinition` wrapped in `ChatMessageToolCall`). -/
structure ChatMessageToolCall where
  name : String
  arguments : Value
  id : String

/-- The gateway reply (`ChatMessage`): assistant text, optional tool-call
list (`None` embeds as `none`) and the raw provider payload. -/
structure ChatMessage where
  content : Option String
  toolCalls : Option (List ChatMessageToolCall)
  raw : Value

/-- The fields of the current `ActionStep` that `step` fills in while it runs
(the Python code mutates `memory_step` in place; the embedding threads the
record). `error` is set by the surrounding driver loop, never by `step`. -/
structure ActionStepRec where
  modelInputMessages : Option (List Message)
  modelOutputMessage : Option String
  modelOutput : Option (List Value)
  toolCalls : List ToolCall
  observations : Option Value
  error : Option String
  actionOutput : Option Value

/-- One entry of the agent's memory: a `TaskStep`, an `ActionStep` (also
`TaskActionStep`, a subclass), or a planning step that
`write_memory_to_messages` skips. -/
inductive MemoryStep where
  | task (t : String) : MemoryStep
  | action (r : ActionStepRec) : MemoryStep
  | planning (p : String) : MemoryStep

/-- The agent memory: the system prompt plus the ordered step list. -/
structure Memory where
  systemPrompt : String
  steps : List MemoryStep

/-- The agent: tool registry, managed agents, state store and memory
(`self.tools`, `self.managed_agents`, `self.state`, `self.memory`). -/
structure Agent where
  tools : List (String × ToolDef)
  managedAgents : List (String × ToolDef)
  state : List (String × Value)
  memory : Memory

/-- Embeds `_substitute_state_variables` on one dict value: a string value is
replaced by `self.state.get(value, value)`, any other value passes through. -/
def substituteValue (state : List (String × Value)) (v : Value) : Value :=
  match v with
  | .str s =>
    match assocLookup state s with
    | some w => w
    | none => .str s
  | w => w

/-- Embeds `ToolCallingSnowflakeAgent._substitute_state_variables`: a dict
argument is substituted value-by-value; any non-dict argument (including a
bare string) is returned unchanged. -/
def substituteStateVariables (state : List (String × Value)) (arguments : Value) : Value :=
  match arguments with
  | .dict kvs => .dict (kvs.map fun kv => (kv.1, substituteValue state kv.2))
  | v => v

/-- Embeds the key lookup in `{**self.tools, **self.managed_agents}`: a later
(`managed_agents`) entry wins over an earlier (`tools`) one. -/
def availableLookup (agent : Agent) (toolName : String) : Option ToolDef :=
  match assocLookup agent.managedAgents toolName with
  | some t => some t
  | none => assocLookup agent.tools toolName

/-- The key list of `{**self.tools, **self.managed_agents}` in Python dict
merge order: the first dict's keys, then the second's keys not already
present. -/
def availableToolNames (agent : Agent) : List String :=
  agent.tools.map Prod.fst ++
    (agent.managedAgents.map Prod.fst).filter
      (fun k => !((agent.tools.map Prod.fst).contains k))

/-- The `tool_results` wrapper dict that `execute_tool_call` builds around a
successful result, and that `action_step_to_messages` rebuilds around an
error text. -/
def toolResultsItem (toolUseId toolName : String) (text : Value) : Value :=
  .dict
    [("type", .str "tool_results"),
     ("tool_results",
      .dict
        [("tool_use_id", .str toolUseId),
         ("name", .str toolName),
         ("content", .list [.dict [("type", .str "text"), ("text", text)]])])]

/-- Embeds the dispatch inside the `try` of `execute_tool_call`: a dict is
splatted (`tool(**arguments)`), a string is passed positionally
(`tool(arguments)`), and any other shape raises
`TypeError("Unsupported arguments type: ...")` inside the `try`. -/
def callTool (tool : ToolDef) (arguments : Value) : Except PyExn Value :=
  match arguments with
  | .dict kvs => tool.run (.dict kvs)
  | .str s => tool.run (.str s)
  | v => .error (.typeError ("Unsupported arguments type: " ++ jsonDumps v))

/-- The unknown-tool message of `execute_tool_call`. -/
def unknownToolMsg (toolName : String) (names : List String) : String :=
  "Unknown tool " ++ toolName ++ ", should be one of: " ++
    String.intercalate ", " names ++ "."

/-- The opening of the argument-error message for a plain tool. -/
def toolArgumentErrMsgOpening (toolName : String) (arguments : Value)
    (e : String) : String :=
  "Invalid call to tool '" ++ toolName ++ "' with arguments " ++
    jsonDumps arguments ++ ": " ++ e ++ "\n" ++
    "You should call this tool with correct input arguments.\n"

/-- The expected-schema hint echoed back to the model
(`Expected inputs: json.dumps(tool.inputs)`). -/
def expectedInputsHint (tool : ToolDef) : String :=
  "Expected inputs: " ++ jsonDumps (.dict tool.inputs)

/-- The closing of the argument-error message for a plain tool. -/
def toolArgumentErrMsgClosing (tool : ToolDef) : String :=
  "\nReturns output type: " ++ tool.outputType ++
    "\nTool description: '" ++ tool.description ++ "'"

/-- The argument-error message for a plain tool: it echoes the expected input
schema back to the model. -/
def toolArgumentErrMsg (toolName : String) (arguments : Value) (e : String)
    (tool : ToolDef) : String :=
  toolArgumentErrMsgOpening toolName arguments e ++
    expectedInputsHint tool ++ toolArgumentErrMsgClosing tool

/-- The argument-error message for a managed agent. -/
def managedAgentArgumentErrMsg (toolName : String) (arguments : Value) (e : String)
    (tool : ToolDef) : String :=
  "Invalid request to team member '" ++ toolName ++ "' with arguments " ++
    jsonDumps arguments ++ ": " ++ e ++ "\n" ++
  "You should call this team member with a valid request.\n" ++
  "Team member description: " ++ tool.description

/-- The opening of the execution-error message for a plain tool. -/
def toolExecutionErrMsgOpening (toolName : String) (arguments : Value) : String :=
  "Error executing tool '" ++ toolName ++ "' with arguments " ++
    jsonDumps arguments ++ ": "

/-- The exception rendering `type(e).__name__: str(e)` inside the
execution-error message. -/
def exceptionText (typeName e : String) : String :=
  typeName ++ ": " ++ e

/-- The execution-error message for a plain tool: it names the exception
class and text; the template carries no expected-schema hint. -/
def toolExecutionErrMsg (toolName : String) (arguments : Value)
    (typeName e : String) : String :=
  toolExecutionErrMsgOpening toolName arguments ++
    exceptionText typeName e ++
    "\nPlease try again or use another tool"

/-- The execution-error message for a managed agent. -/
def managedAgentExecutionErrMsg (toolName : String) (arguments : Value)
    (e : String) : String :=
  "Error executing request to team member '" ++ toolName ++ "' with arguments " ++
    jsonDumps arguments ++ ": " ++ e ++ "\n" ++
  "Please try again or request to another team member"

/-- Embeds `ToolCallingSnowflakeAgent.execute_tool_call`: resolve the name in
the merged tool/managed-agent registry (unknown name raises
`AgentToolExecutionError` listing the valid names), substitute state
variables into the arguments, invoke, wrap the result in the `tool_results`
shape; a `TypeError` becomes an `AgentToolCallError`, any other exception an
`AgentToolExecutionError`. -/
def executeToolCall (agent : Agent) (toolName : String) (arguments : Value)
    (toolId : String) : Except AgentError Value :=
  match availableLookup agent toolName with
  | none =>
    .error (.toolExecutionError (unknownToolMsg toolName (availableToolNames agent)))
  | some tool =>
    let args := substituteStateVariables agent.state arguments
    let isManagedAgent := (assocLookup agent.managedAgents toolName).isSome
    match callTool tool args with
    | .ok toolRes => .ok (.list [toolResultsItem toolId toolName toolRes])
    | .error (.typeError e) =>
      .error (.toolCallError
        (if isManagedAgent then managedAgentArgumentErrMsg toolName args e tool
         else toolArgumentErrMsg toolName args e tool))
    | .error (.otherError typeName e) =>
      .error (.toolExecutionError
        (if isManagedAgent then managedAgentExecutionErrMsg toolName args e
         else toolExecutionErrMsg toolName args typeName e))

/-- Embeds the `final_answer` argument unpacking in `step`: a dict yields its
`"answer"` entry when present and the whole dict otherwise; a non-dict
argument is the answer itself. -/
def extractAnswer (toolArguments : Value) : Value :=
  match toolArguments with
  | .dict kvs =>
    match assocLookup kvs "answer" with
    | some v => v
    | none => .dict kvs
  | v => v

/-- Embeds the state-key indirection in `step`: a string answer that is a
current state key resolves to the stored value (`self.state[answer]`); every
other answer is returned literally. -/
def resolveFinalAnswer (state : List (String × Value)) (answer : Value) : Value :=
  match answer with
  | .str s =>
    match assocLookup state s with
    | some v => v
    | none => .str s
  | v => v

/-- Embeds `model_message.raw.get("content_list", [])`. -/
def rawContentList (raw : Value) : List Value :=
  match raw with
  | .dict kvs =>
    match assocLookup kvs "content_list" with
    | some (.list items) => items
    | _ => []
  | _ => []

/-- Embeds the filter `item.get("type") == "tool_use"` over the raw
content list. -/
def isToolUseItem (item : Value) : Bool :=
  match item with
  | .dict kvs =>
    match assocLookup kvs "type" with
    | some (.str t) => t == "tool_use"
    | _ => false
  | _ => false

/-- Embeds a `Message` dict as a `Value` (used when
`action_step_to_messages` stores a message list as a content payload). -/
def messageToValue (m : Message) : Value :=
  .dict
    [("role", .str m.role),
     ("content", m.content.getD .vnone),
     ("content_list", m.contentList.getD .vnone)]

/-- Embeds `memory_step.model_input_messages[-1]["content"]`, the content of
the last message sent to the model. -/
def lastMessageContent (msgs : Option (List Message)) : Option Value :=
  match msgs with
  | some l =>
    match l.getLast? with
    | some m => m.content
    | none => none
  | none => none

/-- The three error strings used in the error-to-message translation of
`action_step_to_messages`. -/
def retryErrorText (err : String) : String :=
  "Error:\n" ++ err ++
    "\nNow let's retry: take care not to repeat previous errors! If you have retried several times, try a completely different approach.\n"

/-- Embeds the error branch of `action_step_to_messages`: the user-role
message carrying the step's error, with the call id and a `tool_results`
payload when the step recorded a tool call. -/
def errorStepMessage (r : ActionStepRec) (err : String) : Message :=
  match r.toolCalls with
  | [] =>
    { role := "user",
      content := some (.str (retryErrorText err)),
      contentList := some (.list []) }
  | tc :: _ =>
    { role := "user",
      content := some (.str ("Call id: " ++ tc.id ++ "\n" ++ retryErrorText err)),
      contentList := some (.list [toolResultsItem tc.id tc.name (.str (retryErrorText err))]) }

/-- The assistant message contributed by an `ActionStep` whose
`model_output` is set. -/
def assistantStepMessage (r : ActionStepRec) (out : List Value) : Message :=
  { role := "assistant",
    content := r.modelOutputMessage.map Value.str,
    contentList := some (.list out) }

/-- The user-role observation message contributed by an `ActionStep` whose
`observations` is set. -/
def observationStepMessage (r : ActionStepRec) (obs : Value) : Message :=
  { role := "user",
    content := lastMessageContent r.modelInputMessages,
    contentList := some obs }

/-- Embeds `action_step_to_messages`: the optional model-input echo (off in
every call the agent makes), then the assistant output, the user-role
observation and the user-role error, each present exactly when the
corresponding field is set. -/
def actionStepToMessages (r : ActionStepRec) (summaryMode : Bool)
    (showModelInputMessages : Bool) : List Message :=
  (match r.modelInputMessages, showModelInputMessages with
   | some ms, true =>
     [{ role := "system", content := some (.list (ms.map messageToValue)),
        contentList := none }]
   | _, _ => []) ++
  (match r.modelOutput with
   | some out => [assistantStepMessage r out]
   | none => []) ++
  (match r.observations with
   | some obs => [observationStepMessage r obs]
   | none => []) ++
  (match r.error with
   | some err => [errorStepMessage r err]
   | none => [])

/-- Embeds `system_prompt_to_messages`. -/
def systemPromptToMessages (systemPrompt : String) : List Message :=
  [{ role := "system", content := some (.str systemPrompt), contentList := none }]

/-- The user-role message a `TaskStep` contributes. -/
def taskStepMessage (t : String) : Message :=
  { role := "user", content := some (.str ("New task:\n" ++ t)), contentList := none }

/-- The message contribution of one memory step inside
`write_memory_to_messages`: action steps go through
`action_step_to_messages`, task steps contribute one task announcement,
anything else is skipped. -/
def memoryStepMessages (s : MemoryStep) (summaryMode : Bool) : List Message :=
  match s with
  | .action r => actionStepToMessages r summaryMode false
  | .task t => [taskStepMessage t]
  | .planning _ => []

/-- Embeds `ToolCallingSnowflakeAgent.write_memory_to_messages`: the system
prompt first, then each step's contribution in memory order. -/
def writeMemoryToMessages (mem : Memory) (summaryMode : Bool) : List Message :=
  systemPromptToMessages mem.systemPrompt ++
    mem.steps.flatMap (fun s => memoryStepMessages s summaryMode)

/-- The two parsing-error messages raised by `step`. -/
def generationErrMsg (e : String) : String :=
  "Error while generating or parsing output:\n" ++ e

/-- The parsing-error message for a reply without tool calls. -/
def noToolCallMsg : String :=
  "Model did not call any tools. Call `final_answer` tool to return a final answer."

/-- The `ActionStepRec` as it stands right after
`memory_step.model_input_messages` is assigned. -/
def initialStepRec (msgs : List Message) : ActionStepRec :=
  { modelInputMessages := some msgs, modelOutputMessage := none,
    modelOutput := none, toolCalls := [], observations := none,
    error := none, actionOutput := none }

/-- Embeds `ToolCallingSnowflakeAgent.step`. The gateway interaction is the
parameter `gw`: `.error e` embeds the call `self.model(...)` raising, `.ok
msg` the returned `ChatMessage`. The result pairs the fields written onto
the current `ActionStep` with the outcome: a raised `AgentError`, `.ok none`
for a non-final step, or `.ok (some v)` for a final answer `v`. -/
def step (agent : Agent) (gw : Except String ChatMessage) :
    ActionStepRec × Except AgentError (Option Value) :=
  let memoryMessages := writeMemoryToMessages agent.memory false
  let rec0 := initialStepRec memoryMessages
  match gw with
  | .error e => (rec0, .error (.parsingError (generationErrMsg e)))
  | .ok msg =>
    let rec1 := { rec0 with modelOutputMessage := msg.content }
    match msg.toolCalls with
    | none => (rec1, .error (.parsingError noToolCallMsg))
    | some [] => (rec1, .error (.parsingError noToolCallMsg))
    | some (tc :: _) =>
      let toolName := tc.name
      let toolArguments := tc.arguments
      let rec2 :=
        { rec1 with
          modelOutput := some ((rawContentList msg.raw).filter isToolUseItem),
          toolCalls := [{ name := toolName, arguments := toolArguments, id := tc.id }] }
      if toolName == "final_answer" then
        let finalAnswer := resolveFinalAnswer agent.state (extractAnswer toolArguments)
        ({ rec2 with actionOutput := some finalAnswer }, .ok (some finalAnswer))
      else
        let args :=
          match toolArguments with
          | .vnone => .dict []
          | v => v
        match executeToolCall agent toolName args tc.id with
        | .error e => (rec2, .error e)
        | .ok observation => ({ rec2 with observations := some observation }, .ok none)

/-- Modelled from the spec: the driver loop around `step`
(`smolagents.MultiStepAgent.run`, not part of this repository's sources)
applies the propagation policy of spec §7 — parsing errors "propagate up and
terminate the run", while argument and execution errors "are captured as
data inside the next prompt, never raised past the loop boundary". -/
def errorAbortsRun : AgentError → Bool
  | .parsingError _ => true
  | .toolCallError _ => false
  | .toolExecutionError _ => false

/-- The message text of an `AgentError`. -/
def agentErrorMsg : AgentError → String
  | .parsingError m => m
  | .toolCallError m => m
  | .toolExecutionError m => m

/-- Modelled from the spec: how the driver loop (not part of this
repository's sources) handles an error raised by `step` — a recoverable
error is recorded on the current `ActionStep` and the run continues
(`some` updated record); a parsing error aborts the run (`none`). -/
def handleStepError (r : ActionStepRec) (e : AgentError) : Option ActionStepRec :=
  if errorAbortsRun e then none
  else some { r with error := some (agentErrorMsg e) }

/-- The rendered `tool_spec` dict that `SnowflakeApiModel._parse_tools_to_call_from`
builds for one tool (`ToolSpec` with its nested `ToolInputSchema`). -/
structure ParsedToolSpec where
  type : String
  name : String
  schemaType : String
  properties : List (String × Value)
  required : List String

/-- Embeds the forcing of the `final_answer` tool's `answer` property: a dict
property is rebuilt with its description (or the default) and
`type: "string"`; a non-dict property passes through. -/
def forcedAnswerProp (prop : Value) : Value :=
  match prop with
  | .dict kvs =>
    .dict
      [("description",
        match assocLookup kvs "description" with
        | some d => d
        | none => .str "The final answer to the problem"),
       ("type", .str "string")]
  | p => p

/-- Embeds the property rendering of `_parse_tools_to_call_from` for one
tool: the `final_answer` tool must have an `answer` input (else the
comprehension's guard raises, wrapped into the `Failed to parse tool` error)
and has that property forced to a string type; every other tool's inputs
pass through unchanged. -/
def parseToolProps (tool : ToolDef) : Except String (List (String × Value)) :=
  if tool.name == "final_answer" then
    match assocLookup tool.inputs "answer" with
    | none =>
      .error ("Failed to parse tool '" ++ tool.name ++
        "': final_answer tool must have an 'answer' property")
    | some _ =>
      .ok (tool.inputs.map fun kv =>
        (kv.1, if kv.1 == "answer" then forcedAnswerProp kv.2 else kv.2))
  else .ok tool.inputs

/-- Embeds one iteration of `_parse_tools_to_call_from`: the `tool_spec`
rendered for one tool, with `required` the full key list of the tool's
inputs. -/
def parseToolOne (tool : ToolDef) : Except String ParsedToolSpec :=
  match parseToolProps tool with
  | .error e => .error e
  | .ok props =>
    .ok
      { type := "generic", name := tool.name, schemaType := "object",
        properties := props,
        required := if tool.inputs.isEmpty then [] else tool.inputs.map Prod.fst }

/-- Embeds `SnowflakeApiModel._parse_tools_to_call_from` over the whole tool
list: each tool is rendered in order; the first failure aborts with its
`ValueError`. -/
def parseToolsToCallFrom : List ToolDef → Except String (List ParsedToolSpec)
  | [] => .ok []
  | t :: rest =>
    match parseToolOne t with
    | .error e => .error e
    | .ok s =>
      match parseToolsToCallFrom rest with
      | .error e => .error e
      | .ok ss => .ok (s :: ss)

/-- Concrete fixture: the spec's running example value
`[[1, 2], [3, 4]]`. -/
def storedMatrix : Value :=
  .list [.list [.int 1, .int 2], .list [.int 3, .int 4]]

/-- Concrete fixture: a tool that returns its argument unchanged. -/
def echoTool : ToolDef :=
  { name := "echo", inputs := [("data", .dict [("type", .str "any")])],
    outputType := "string", description := "Echoes its argument.",
    run := fun v => .ok v }

/-- Concrete fixture: a tool whose body raises
`TypeError("missing argument")`. -/
def typeErrorTool : ToolDef :=
  { name := "bad_args", inputs := [("data", .dict [("type", .str "any")])],
    outputType := "string", description := "Always rejects its arguments.",
    run := fun _ => .error (.typeError "missing argument") }

/-- Concrete fixture: a tool whose body raises `ValueError("boom")`. -/
def valueErrorTool : ToolDef :=
  { name := "explode", inputs := [("data", .dict [("type", .str "any")])],
    outputType := "string", description := "Always fails at run time.",
    run := fun _ => .error (.otherError "ValueError" "boom") }

/-- Concrete fixture: an agent with three tools, no managed agents, one
state-store entry `result_1` and an empty memory. -/
def sampleAgent : Agent :=
  { tools := [("echo", echoTool), ("bad_args", typeErrorTool), ("explode", valueErrorTool)],
    managedAgents := [],
    state := [("result_1", storedMatrix)],
    memory := { systemPrompt := "You are a helpful agent.", steps := [] } }

/-- Concrete fixture: a tool call of `echo` on the literal string
`"result_1"`. -/
def echoCall : ChatMessageToolCall :=
  { name := "echo", arguments := .dict [("data", .str "result_1")], id := "call_1" }

/-- Concrete fixture: a `final_answer` call whose answer names the state key
`result_1`. -/
def finalAnswerCall : ChatMessageToolCall :=
  { name := "final_answer", arguments := .dict [("answer", .str "result_1")],
    id := "call_2" }

/-- Concrete fixture: a gateway reply carrying two tool calls. -/
def twoCallMessage : ChatMessage :=
  { content := some "I will call a tool.",
    toolCalls := some [echoCall, finalAnswerCall],
    raw := .dict [] }

/-- Concrete fixture: a gateway reply whose `final_answer` call comes
first. -/
def finalAnswerMessage : ChatMessage :=
  { content := some "Returning the answer.",
    toolCalls := some [finalAnswerCall],
    raw := .dict [] }

/-- Concrete fixture: a gateway reply with an empty tool-call list. -/
def emptyCallMessage : ChatMessage :=
  { content := some "No tools needed.", toolCalls := some [], raw := .dict [] }

/-- Concrete fixture: a gateway reply whose tool-call list is `None`. -/
def noneCallMessage : ChatMessage :=
  { content := some "Plain text only.", toolCalls := none, raw := .dict [] }

/-- Concrete fixture: an action-step record as left by a completed step. -/
def sampleActionRec : ActionStepRec :=
  { modelInputMessages := some (systemPromptToMessages "You are a helpful agent."),
    modelOutputMessage := some "I will call a tool.",
    modelOutput := some [],
    toolCalls := [{ name := "echo", arguments := .dict [("data", .str "result_1")], id := "call_1" }],
    observations := some (.list [toolResultsItem "call_1" "echo" (.str "ok")]),
    error := none,
    actionOutput := none }

/-- Concrete fixture: a memory with one task step and one action step. -/
def sampleMemory : Memory :=
  { systemPrompt := "You are a helpful agent.",
    steps := [.task "Build a feature table.", .action sampleActionRec] }

/-- Concrete fixture: a well-formed `final_answer` tool as the gateway sees
it. -/
def finalAnswerTool : ToolDef :=
  { name := "final_answer",
    inputs := [("answer", .dict [("description", .str "The final answer"), ("type", .str "any")])],
    outputType := "any", description := "Provides a final answer.",
    run := fun v => .ok v }

/-- Concrete fixture: a `final_answer` tool missing the `answer` input. -/
def badFinalAnswerTool : ToolDef :=
  { name := "final_answer", inputs := [("result", .dict [("type", .str "any")])],
    outputType := "any", description := "Provides a final answer.",
    run := fun v => .ok v }

/-! ## Helper lemmas -/

/-- Looking a key up in an association list whose values were rewritten by a
key-aware function rewrites the looked-up value with that function. -/
theorem assocLookup_map_withKey {α β : Type} (f : String → α → β)
    (kvs : List (String × α)) (k : String) :
    assocLookup (kvs.map fun kv => (kv.1, f kv.1 kv.2)) k =
      (assocLookup kvs k).map (f k) := by
  induction kvs with
  | nil => rfl
  | cons kv rest ih =>
    obtain ⟨k', v⟩ := kv
    by_cases h : k' = k
    · subst h
      simp [assocLookup]
    · have hb : (k' == k) = false := by
        simp [h]
      simp [assocLookup, hb, ih]

/-- If one tool of the list fails to parse, the whole translation fails. -/
theorem parseToolsToCallFrom_error_of_mem (tools : List ToolDef) (tool : ToolDef)
    (hmem : tool ∈ tools) (e : String) (herr : parseToolOne tool = .error e) :
    ∃ e', parseToolsToCallFrom tools = .error e' := by
  induction tools with
  | nil => cases hmem
  | cons t rest ih =>
    rcases List.mem_cons.mp hmem with h | h
    · subst h
      exact ⟨e, by simp [parseToolsToCallFrom, herr]⟩
    · match h1 : parseToolOne t with
      | .error e1 => exact ⟨e1, by simp [parseToolsToCallFrom, h1]⟩
      | .ok s1 =>
        obtain ⟨e', he'⟩ := ih h
        exact ⟨e', by simp [parseToolsToCallFrom, h1, he']⟩

/-! ## Claim theorems -/

/-- Claim C3 (counterexample): the claim says a bare string argument that
equals a state key is substituted with the stored value, but
`_substitute_state_variables` returns every non-dict argument unchanged:
with state `{"result_1": [[1,2],[3,4]]}` the bare argument `"result_1"`
passes through as the literal string, which differs from the stored
value even though `"result_1"` is a state key. -/
theorem substituteStateVariables_bare_string_not_substituted :
    substituteStateVariables [("result_1", storedMatrix)] (.str "result_1") =
      .str "result_1" ∧
    assocLookup [("result_1", storedMatrix)] "result_1" = some storedMatrix ∧
    Value.str "result_1" ≠ storedMatrix :=
  ⟨rfl, rfl, fun h => Value.noConfusion h⟩

/-- Claim C3 (amended): dict arguments are substituted value-by-value — a
string value that is a state key becomes the stored value, a string value
matching no key and any non-string value pass through — while a bare
(non-dict) argument, including a string equal to a state key, always passes
through `_substitute_state_variables` unchanged. -/
theorem substitution_characterization (state : List (String × Value)) :
    (∀ kvs, substituteStateVariables state (.dict kvs) =
      .dict (kvs.map fun kv => (kv.1, substituteValue state kv.2))) ∧
    (∀ s v, assocLookup state s = some v → substituteValue state (.str s) = v) ∧
    (∀ s, assocLookup state s = none → substituteValue state (.str s) = .str s) ∧
    (∀ v, (∀ s, v ≠ .str s) → substituteValue state v = v) ∧
    (∀ v, (∀ kvs, v ≠ .dict kvs) → substituteStateVariables state v = v) := by
  refine ⟨fun kvs => rfl, ?_, ?_, ?_, ?_⟩
  · intro s v h
    simp [substituteValue, h]
  · intro s h
    simp [substituteValue, h]
  · intro v h
    cases v with
    | str s => exact absurd rfl (h s)
    | _ => rfl
  · intro v h
    cases v with
    | dict kvs => exact absurd rfl (h kvs)
    | _ => rfl

/-- Witness for the amended C3 at the spec's running example: the dict value
`"result_1"` is substituted with the stored matrix, and a non-string value
passes through. -/
theorem substitution_characterization_witness :
    substituteValue [("result_1", storedMatrix)] (.str "result_1") = storedMatrix ∧
    substituteValue [("result_1", storedMatrix)] (.int 3) = .int 3 :=
  ⟨(substitution_characterization [("result_1", storedMatrix)]).2.1 "result_1"
      storedMatrix rfl,
   (substitution_characterization [("result_1", storedMatrix)]).2.2.2.1 (.int 3)
      (fun s h => Value.noConfusion h)⟩

/-- Claim C4: when the step's first tool call names `final_answer`, the step
terminates the run with `.ok (some v)` where `v` is the resolved answer:
a string answer that is a current state key resolves to the stored value,
and any other answer is returned literally; the resolved value is also
recorded as the step's `action_output`. -/
theorem step_final_answer_resolution (agent : Agent) (msg : ChatMessage)
    (tc : ChatMessageToolCall) (rest : List ChatMessageToolCall)
    (hcalls : msg.toolCalls = some (tc :: rest))
    (hname : tc.name = "final_answer") :
    (step agent (.ok msg)).2 =
      .ok (some (resolveFinalAnswer agent.state (extractAnswer tc.arguments))) ∧
    (step agent (.ok msg)).1.actionOutput =
      some (resolveFinalAnswer agent.state (extractAnswer tc.arguments)) ∧
    (∀ s v, assocLookup agent.state s = some v →
      resolveFinalAnswer agent.state (.str s) = v) ∧
    (∀ s, assocLookup agent.state s = none →
      resolveFinalAnswer agent.state (.str s) = .str s) ∧
    (∀ v, (∀ s, v ≠ .str s) → resolveFinalAnswer agent.state v = v) := by
  refine ⟨?_, ?_, ?_, ?_, ?_⟩
  · simp [step, hcalls, hname]
  · simp [step, hcalls, hname]
  · intro s v h
    simp [resolveFinalAnswer, h]
  · intro s h
    simp [resolveFinalAnswer, h]
  · intro v h
    cases v with
    | str s => exact absurd rfl (h s)
    | _ => rfl

/-- Witness for C4 at the fixture: the first call is `final_answer` with
answer `"result_1"`, a current state key, so the run terminates with the
stored matrix, not the string. -/
theorem step_final_answer_resolution_witness :
    (step sampleAgent (.ok finalAnswerMessage)).2 = .ok (some storedMatrix) := by
  rw [(step_final_answer_resolution sampleAgent finalAnswerMessage
    finalAnswerCall [] rfl rfl).1]
  rfl

/-- Claim C10: the `final_answer` argument unpacking in `step` — a dict
argument yields the value under `"answer"` when present and the whole dict
otherwise, a non-dict argument is taken as the answer itself — and only then
is the state-key indirection applied to the extracted answer. -/
theorem step_answer_extraction (agent : Agent) (msg : ChatMessage)
    (tc : ChatMessageToolCall) (rest : List ChatMessageToolCall)
    (hcalls : msg.toolCalls = some (tc :: rest))
    (hname : tc.name = "final_answer") :
    (∀ kvs v, tc.arguments = .dict kvs → assocLookup kvs "answer" = some v →
      (step agent (.ok msg)).2 = .ok (some (resolveFinalAnswer agent.state v))) ∧
    (∀ kvs, tc.arguments = .dict kvs → assocLookup kvs "answer" = none →
      (step agent (.ok msg)).2 =
        .ok (some (resolveFinalAnswer agent.state (.dict kvs)))) ∧
    ((∀ kvs, tc.arguments ≠ .dict kvs) →
      (step agent (.ok msg)).2 =
        .ok (some (resolveFinalAnswer agent.state tc.arguments))) := by
  refine ⟨?_, ?_, ?_⟩
  · intro kvs v hargs hans
    simp [step, hcalls, hname, hargs, extractAnswer, hans]
  · intro kvs hargs hans
    simp [step, hcalls, hname, hargs, extractAnswer, hans]
  · intro h
    have hx : extractAnswer tc.arguments = tc.arguments := by
      cases harg : tc.arguments with
      | dict kvs => exact absurd harg (h kvs)
      | _ => rfl
    simp [step, hcalls, hname, hx]

/-- Witness for C10 at the fixture: the `final_answer` dict argument carries
an `"answer"` key, so that value (here the state key `"result_1"`) is the
extracted answer and is then resolved through the state store. -/
theorem step_answer_extraction_witness :
    (step sampleAgent (.ok finalAnswerMessage)).2 =
      .ok (some (resolveFinalAnswer sampleAgent.state (.str "result_1"))) := by
  rw [(step_answer_extraction sampleAgent finalAnswerMessage
    finalAnswerCall [] rfl rfl).1 [("answer", .str "result_1")]
    (.str "result_1") rfl rfl]

/-- Claim C1: on a gateway reply with at least one tool call, the step
records exactly one `ToolCall` — built from the first call of the reply — on
the current `ActionStep`; the step's entire behaviour is unchanged when the
later calls are dropped (they are never acted upon); and no step ever
records more than one `ToolCall`. -/
theorem step_single_tool_call (agent : Agent) (msg : ChatMessage)
    (tc : ChatMessageToolCall) (rest : List ChatMessageToolCall)
    (hcalls : msg.toolCalls = some (tc :: rest)) :
    (step agent (.ok msg)).1.toolCalls =
      [{ name := tc.name, arguments := tc.arguments, id := tc.id }] ∧
    (∀ rest', step agent (.ok { msg with toolCalls := some (tc :: rest') }) =
      step agent (.ok msg)) ∧
    (∀ gw, (step agent gw).1.toolCalls.length ≤ 1) := by
  refine ⟨?_, ?_, ?_⟩
  · simp only [step, hcalls]
    split
    · rfl
    · split <;> rfl
  · intro rest'
    simp [step, hcalls]
  · intro gw
    match gw with
    | .error e => simp [step, initialStepRec]
    | .ok m =>
      match h : m.toolCalls with
      | none => simp [step, h, initialStepRec]
      | some [] => simp [step, h, initialStepRec]
      | some (t :: l) =>
        simp only [step, h]
        split
        · simp
        · split <;> simp

/-- Witness for C1 at the fixture: on a reply carrying two tool calls the
step records only the first (`echo`) call, and dropping the second call
does not change the step's behaviour. -/
theorem step_single_tool_call_witness :
    (step sampleAgent (.ok twoCallMessage)).1.toolCalls =
      [{ name := "echo", arguments := .dict [("data", .str "result_1")],
         id := "call_1" }] ∧
    step sampleAgent (.ok { twoCallMessage with toolCalls := some [echoCall] }) =
      step sampleAgent (.ok twoCallMessage) := by
  refine ⟨?_, (step_single_tool_call sampleAgent twoCallMessage echoCall
    [finalAnswerCall] rfl).2.1 []⟩
  rw [(step_single_tool_call sampleAgent twoCallMessage echoCall
    [finalAnswerCall] rfl).1]
  rfl

/-- Claim C2: a gateway exception is wrapped as an `AgentParsingError`, and a
reply whose tool-call list is `None` or empty raises an `AgentParsingError`;
in both cases the step's outcome is that error (no silent continue and no
retry inside the step), and the driver policy modelled from the spec aborts
the run on a parsing error instead of recording it. -/
theorem step_parsing_errors (agent : Agent) :
    (∀ e, (step agent (.error e)).2 = .error (.parsingError (generationErrMsg e))) ∧
    (∀ msg, msg.toolCalls = none →
      (step agent (.ok msg)).2 = .error (.parsingError noToolCallMsg)) ∧
    (∀ msg, msg.toolCalls = some [] →
      (step agent (.ok msg)).2 = .error (.parsingError noToolCallMsg)) ∧
    (∀ m, errorAbortsRun (.parsingError m) = true) ∧
    (∀ m r, handleStepError r (.parsingError m) = none) := by
  refine ⟨fun e => rfl, ?_, ?_, fun m => rfl, fun m r => rfl⟩
  · intro msg h
    simp [step, h]
  · intro msg h
    simp [step, h]

/-- Witness for C2 at the fixture: a raised gateway call, a `None` tool-call
list and an empty tool-call list each produce a parsing error, which the
driver policy turns into a run abort. -/
theorem step_parsing_errors_witness :
    (step sampleAgent (.error "connection reset")).2 =
      .error (.parsingError (generationErrMsg "connection reset")) ∧
    (step sampleAgent (.ok noneCallMessage)).2 =
      .error (.parsingError noToolCallMsg) ∧
    (step sampleAgent (.ok emptyCallMessage)).2 =
      .error (.parsingError noToolCallMsg) ∧
    handleStepError sampleActionRec (.parsingError noToolCallMsg) = none :=
  ⟨(step_parsing_errors sampleAgent).1 "connection reset",
   (step_parsing_errors sampleAgent).2.1 noneCallMessage rfl,
   (step_parsing_errors sampleAgent).2.2.1 emptyCallMessage rfl,
   (step_parsing_errors sampleAgent).2.2.2.2 noToolCallMsg sampleActionRec⟩

/-- Claim C5: for a registered plain tool, a `TypeError` from the tool body
becomes an `AgentToolCallError` whose message contains the expected-schema
hint `Expected inputs: json.dumps(tool.inputs)`, while any other exception
becomes an `AgentToolExecutionError` whose message is exactly the
opening-plus-exception-plus-advice template — it contains
`type(e).__name__: str(e)` and no schema hint; the driver policy modelled
from the spec records either error on the step and continues the run. -/
theorem execute_tool_call_error_differentiation (agent : Agent)
    (toolName : String) (arguments : Value) (toolId : String) (tool : ToolDef)
    (htool : availableLookup agent toolName = some tool)
    (hplain : assocLookup agent.managedAgents toolName = none) :
    (∀ e, callTool tool (substituteStateVariables agent.state arguments) =
        .error (.typeError e) →
      executeToolCall agent toolName arguments toolId =
        .error (.toolCallError (toolArgumentErrMsg toolName
          (substituteStateVariables agent.state arguments) e tool)) ∧
      (∃ a b, toolArgumentErrMsg toolName
          (substituteStateVariables agent.state arguments) e tool =
        a ++ expectedInputsHint tool ++ b)) ∧
    (∀ typeName e, callTool tool (substituteStateVariables agent.state arguments) =
        .error (.otherError typeName e) →
      executeToolCall agent toolName arguments toolId =
        .error (.toolExecutionError (toolExecutionErrMsg toolName
          (substituteStateVariables agent.state arguments) typeName e)) ∧
      (∃ a b, toolExecutionErrMsg toolName
          (substituteStateVariables agent.state arguments) typeName e =
        a ++ exceptionText typeName e ++ b) ∧
      toolExecutionErrMsg toolName (substituteStateVariables agent.state arguments)
          typeName e =
        toolExecutionErrMsgOpening toolName
            (substituteStateVariables agent.state arguments) ++
          exceptionText typeName e ++ "\nPlease try again or use another tool") ∧
    (∀ m r, handleStepError r (.toolCallError m) =
      some { r with error := some m }) ∧
    (∀ m r, handleStepError r (.toolExecutionError m) =
      some { r with error := some m }) := by
  refine ⟨?_, ?_, fun m r => rfl, fun m r => rfl⟩
  · intro e hcall
    refine ⟨?_, ⟨toolArgumentErrMsgOpening toolName
      (substituteStateVariables agent.state arguments) e,
      toolArgumentErrMsgClosing tool, rfl⟩⟩
    simp [executeToolCall, htool, hplain, hcall]
  · intro typeName e hcall
    refine ⟨?_, ⟨toolExecutionErrMsgOpening toolName
      (substituteStateVariables agent.state arguments),
      "\nPlease try again or use another tool", rfl⟩, rfl⟩
    simp [executeToolCall, htool, hplain, hcall]

/-- Witness for C5 at the fixture: the tool raising `TypeError` yields the
argument error carrying the schema hint; the tool raising `ValueError`
yields the execution error built from the exception class and text. -/
theorem execute_tool_call_error_differentiation_witness :
    executeToolCall sampleAgent "bad_args" (.dict [("data", .str "result_1")]) "call_9" =
      .error (.toolCallError (toolArgumentErrMsg "bad_args"
        (substituteStateVariables sampleAgent.state (.dict [("data", .str "result_1")]))
        "missing argument" typeErrorTool)) ∧
    executeToolCall sampleAgent "explode" (.dict [("data", .str "result_1")]) "call_9" =
      .error (.toolExecutionError (toolExecutionErrMsg "explode"
        (substituteStateVariables sampleAgent.state (.dict [("data", .str "result_1")]))
        "ValueError" "boom")) :=
  ⟨((execute_tool_call_error_differentiation sampleAgent "bad_args"
      (.dict [("data", .str "result_1")]) "call_9" typeErrorTool rfl rfl).1
      "missing argument" rfl).1,
   ((execute_tool_call_error_differentiation sampleAgent "explode"
      (.dict [("data", .str "result_1")]) "call_9" valueErrorTool rfl rfl).2.1
      "ValueError" "boom" rfl).1⟩

/-- Claim C6: calling `execute_tool_call` with a name in neither the tool
registry nor the managed-agents mapping raises an error whose message joins
exactly the merged registry's key list, and that key list holds a name if
and only if it is a tool name or a managed-agent name. -/
theorem execute_tool_call_unknown_tool (agent : Agent) (toolName : String)
    (arguments : Value) (toolId : String)
    (h : availableLookup agent toolName = none) :
    executeToolCall agent toolName arguments toolId =
      .error (.toolExecutionError
        (unknownToolMsg toolName (availableToolNames agent))) ∧
    (∀ k, k ∈ availableToolNames agent ↔
      (k ∈ agent.tools.map Prod.fst ∨ k ∈ agent.managedAgents.map Prod.fst)) := by
  constructor
  · simp [executeToolCall, h]
  · intro k
    unfold availableToolNames
    by_cases hk : k ∈ agent.tools.map Prod.fst
    · simp [hk]
    · simp [hk, List.mem_filter]

/-- Witness for C6 at the fixture: the unknown name `foo` produces the error
enumerating exactly `echo, bad_args, explode`, and `echo` is in the
enumerated set. -/
theorem execute_tool_call_unknown_tool_witness :
    executeToolCall sampleAgent "foo" (.dict []) "call_7" =
      .error (.toolExecutionError
        (unknownToolMsg "foo" (availableToolNames sampleAgent))) ∧
    ("echo" ∈ availableToolNames sampleAgent ↔
      ("echo" ∈ sampleAgent.tools.map Prod.fst ∨
        "echo" ∈ sampleAgent.managedAgents.map Prod.fst)) :=
  ⟨(execute_tool_call_unknown_tool sampleAgent "foo" (.dict []) "call_7" rfl).1,
   (execute_tool_call_unknown_tool sampleAgent "foo" (.dict []) "call_7" rfl).2 "echo"⟩

/-- Claim C7: the projected message list is the system-prompt message
followed by each step's contribution in order; a task step contributes
exactly one user-role message announcing the new task; an action step
contributes the assistant output, then the user-role observation, then the
user-role error — in that fixed order, each present exactly when the
corresponding field is set — hence zero to three messages. -/
theorem write_memory_projection_shape (mem : Memory) (b : Bool) :
    writeMemoryToMessages mem b =
      { role := "system", content := some (.str mem.systemPrompt),
        contentList := none } ::
        mem.steps.flatMap (fun s => memoryStepMessages s b) ∧
    (∀ t, memoryStepMessages (.task t) b = [taskStepMessage t]) ∧
    (∀ t, (taskStepMessage t).role = "user" ∧
      (taskStepMessage t).content = some (.str ("New task:\n" ++ t))) ∧
    (∀ r, memoryStepMessages (.action r) b =
      (match r.modelOutput with
       | some out => [assistantStepMessage r out]
       | none => []) ++
      (match r.observations with
       | some obs => [observationStepMessage r obs]
       | none => []) ++
      (match r.error with
       | some err => [errorStepMessage r err]
       | none => [])) ∧
    (∀ r, (memoryStepMessages (.action r) b).length ≤ 3) ∧
    (∀ r out, (assistantStepMessage r out).role = "assistant") ∧
    (∀ r obs, (observationStepMessage r obs).role = "user") ∧
    (∀ r err, (errorStepMessage r err).role = "user") := by
  refine ⟨rfl, fun t => rfl, fun t => ⟨rfl, rfl⟩, ?_, ?_, fun r out => rfl,
    fun r obs => rfl, ?_⟩
  · intro r
    obtain ⟨mim, mom, mo, tcs, obs, err, ao⟩ := r
    cases mim <;> cases mo <;> cases obs <;> cases err <;> rfl
  · intro r
    obtain ⟨mim, mom, mo, tcs, obs, err, ao⟩ := r
    cases mim <;> cases mo <;> cases obs <;> cases err <;>
      simp [memoryStepMessages, actionStepToMessages]
  · intro r err
    unfold errorStepMessage
    cases r.toolCalls <;> rfl

/-- Claim C8: the memory-to-messages projection is a pure function of the
system prompt and the ordered step sequence — two memories agreeing on both
project to identical message lists, independently also of the (unused)
summary-mode flag. -/
theorem write_memory_deterministic (m1 m2 : Memory) (b1 b2 : Bool)
    (hsp : m1.systemPrompt = m2.systemPrompt) (hsteps : m1.steps = m2.steps) :
    writeMemoryToMessages m1 b1 = writeMemoryToMessages m2 b2 := by
  obtain ⟨sp1, st1⟩ := m1
  obtain ⟨sp2, st2⟩ := m2
  simp only at hsp hsteps
  subst hsp
  subst hsteps
  unfold writeMemoryToMessages
  have h : ∀ s : MemoryStep, memoryStepMessages s b1 = memoryStepMessages s b2 := by
    intro s
    cases s <;> rfl
  simp only [h]

/-- Witness for C8 at the fixture: projecting the same memory twice (even
with different summary-mode flags) yields the same message list. -/
theorem write_memory_deterministic_witness :
    writeMemoryToMessages sampleMemory true = writeMemoryToMessages sampleMemory false :=
  write_memory_deterministic sampleMemory sampleMemory true false rfl rfl

/-- Claim C9: in the gateway's tool-schema rendering, a `final_answer` tool
missing the `answer` input makes the whole translation fail; a `final_answer`
tool whose `answer` property is a dict gets that property forced to
`type: "string"` (keeping its description, or the default); any other tool's
properties pass through unchanged; and every rendered `required` list is the
full key list of the tool's inputs. -/
theorem gateway_tool_schema_translation (tools : List ToolDef) (tool : ToolDef) :
    (tool ∈ tools → tool.name = "final_answer" →
      assocLookup tool.inputs "answer" = none →
      ∃ e, parseToolsToCallFrom tools = .error e) ∧
    (∀ kvs, tool.name = "final_answer" →
      assocLookup tool.inputs "answer" = some (.dict kvs) →
      ∃ ts, parseToolOne tool = .ok ts ∧
        assocLookup ts.properties "answer" = some (forcedAnswerProp (.dict kvs)) ∧
        ts.required = tool.inputs.map Prod.fst) ∧
    (∀ kvs, forcedAnswerProp (.dict kvs) =
      .dict [("description",
              match assocLookup kvs "description" with
              | some d => d
              | none => .str "The final answer to the problem"),
             ("type", .str "string")]) ∧
    (tool.name ≠ "final_answer" →
      parseToolOne tool = .ok
        { type := "generic", name := tool.name, schemaType := "object",
          properties := tool.inputs,
          required := if tool.inputs.isEmpty then []
            else tool.inputs.map Prod.fst }) ∧
    (∀ ts, parseToolOne tool = .ok ts → ts.required = tool.inputs.map Prod.fst) := by
  refine ⟨?_, ?_, fun kvs => rfl, ?_, ?_⟩
  · intro hmem hname hans
    have herr : parseToolOne tool = .error ("Failed to parse tool '" ++ tool.name ++
        "': final_answer tool must have an 'answer' property") := by
      simp [parseToolOne, parseToolProps, hname, hans]
    exact parseToolsToCallFrom_error_of_mem tools tool hmem _ herr
  · intro kvs hname hans
    refine ⟨{ type := "generic", name := tool.name, schemaType := "object",
              properties := (tool.inputs.map fun kv =>
                (kv.1, if kv.1 == "answer" then forcedAnswerProp kv.2 else kv.2)),
              required := if tool.inputs.isEmpty then []
                else tool.inputs.map Prod.fst }, ?_, ?_, ?_⟩
    · simp [parseToolOne, parseToolProps, hname, hans]
    · have hmap := assocLookup_map_withKey
        (fun k v => if k == "answer" then forcedAnswerProp v else v)
        tool.inputs "answer"
      simp only [] at hmap
      rw [hmap, hans]
      rfl
    · cases hi : tool.inputs with
      | nil =>
        rw [hi] at hans
        cases hans
      | cons a l => simp [hi]
  · intro hname
    simp [parseToolOne, parseToolProps, hname]
  · intro ts h
    cases hp : parseToolProps tool with
    | error e =>
      simp only [parseToolOne, hp] at h
      exact Except.noConfusion h
    | ok props =>
      simp only [parseToolOne, hp] at h
      injection h with h2
      rw [← h2]
      cases hi : tool.inputs with
      | nil => simp [hi]
      | cons a l => simp [hi]

/-- Witness for C9 at the fixtures: a `final_answer` tool without an
`answer` input fails the translation; the well-formed `final_answer` tool
gets its answer property forced; the `echo` tool passes through with its
inputs unchanged and a full `required` list. -/
theorem gateway_tool_schema_translation_witness :
    (∃ e, parseToolsToCallFrom [badFinalAnswerTool] = .error e) ∧
    (∃ ts, parseToolOne finalAnswerTool = .ok ts ∧
      assocLookup ts.properties "answer" =
        some (forcedAnswerProp
          (.dict [("description", .str "The final answer"), ("type", .str "any")])) ∧
      ts.required = finalAnswerTool.inputs.map Prod.fst) ∧
    parseToolOne echoTool = .ok
      { type := "generic", name := echoTool.name, schemaType := "object",
        properties := echoTool.inputs,
        required := if echoTool.inputs.isEmpty then []
          else echoTool.inputs.map Prod.fst } :=
  ⟨(gateway_tool_schema_translation [badFinalAnswerTool] badFinalAnswerTool).1
      (List.mem_singleton.mpr rfl) rfl rfl,
   (gateway_tool_schema_translation [] finalAnswerTool).2.1
      [("description", .str "The final answer"), ("type", .str "any")] rfl rfl,
   (gateway_tool_schema_translation [] echoTool).2.2.2.1
      (by decide)⟩
